import Mathlib

/-!
Verification development for the arlbench DQN training core
(src/arlbench/algorithms/dqn_vw.py, src/arlbench/algorithms/algorithm.py).

Numeric tensors are embedded as rational numbers, batched quantities as
lists (one entry per parallel environment) or as functions out of `Fin n`.
Network parameter trees are embedded leaf-wise as functions `i -> Q`.
External collaborators that are not part of this repository (the flashbax
buffer internals, optax.incremental_update, the JAX RNG) are modelled from
the spec and marked as such; everything else is translated from the source.
-/

namespace ARLBench

/-- Mean of a list of rationals, matching jnp.mean (sum divided by length). -/
def meanQ (l : List ℚ) : ℚ := l.sum / (l.length : ℚ)

/-- Maximum entry of a list of rationals, matching jnp.max along the last axis. -/
def maxVal : List ℚ → ℚ
  | [] => 0
  | x :: xs => xs.foldl max x

/-- Worker for argmaxIdx: carries the best index and value seen so far. -/
def argmaxGo (bestIdx : ℕ) (bestVal : ℚ) (i : ℕ) : List ℚ → ℕ
  | [] => bestIdx
  | x :: xs => if bestVal < x then argmaxGo i x (i + 1) xs else argmaxGo bestIdx bestVal (i + 1) xs

/-- Index of the first maximal entry, matching jnp.argmax along the last axis. -/
def argmaxIdx : List ℚ → ℕ
  | [] => 0
  | x :: xs => argmaxGo 0 x 1 xs

/-- Embeds jax.lax.scan with a fixed iteration count and no per-step input:
    threads a carry through n applications of f, collecting the emitted values. -/
def scanN {C B : Type} (f : C → C × B) : ℕ → C → C × List B
  | 0, c => (c, [])
  | n + 1, c => ((scanN f n (f c).1).1, (f c).2 :: (scanN f n (f c).1).2)

/-- The hyperparameter configuration keys read by the DQN core
    (dqn_vw.py get_hpo_config_space), together with env_options n_envs. -/
structure HPOConfig where
  gamma : ℚ
  tau : ℚ
  epsilon : ℚ
  buffer_epsilon : ℚ
  buffer_alpha : ℚ
  use_target_network : Bool
  train_frequency : ℕ
  learning_starts : ℕ
  target_network_update_freq : ℕ
  buffer_batch_size : ℕ
  buffer_size : ℕ
  n_envs : ℕ
deriving DecidableEq

/-- Embeds arlbench.algorithms.common.TimeStep: one stored transition. -/
structure TimeStep (Obs : Type) where
  last_obs : Obs
  obs : Obs
  action : ℕ
  reward : ℚ
  done : Bool
deriving DecidableEq

/-- Modelled from the spec (section 3 / 4.1): the state of the prioritised flat
    replay buffer (flashbax, not part of this repository): circular storage of
    timesteps, per-slot priority, write index and valid length. -/
structure BufferState (σ : Type) where
  capacity : ℕ
  storage : List σ
  priorities : List ℚ
  current_index : ℕ
  valid_length : ℕ
deriving DecidableEq

/-- Modelled from the spec (4.1): buffer.add writes a batch of timesteps starting
    at current_index, wrapping circularly, and advances current_index by the
    batch size modulo capacity. -/
def buffer_add {σ : Type} (bs : BufferState σ) (batch : List σ) : BufferState σ :=
  { bs with
    storage := ((List.range batch.length).zip batch).foldl
      (fun st jx => st.set ((bs.current_index + jx.1) % bs.capacity) jx.2) bs.storage
    current_index := (bs.current_index + batch.length) % bs.capacity
    valid_length := min (bs.valid_length + batch.length) bs.capacity }

/-- Modelled from the spec (4.1): buffer.set_priorities overwrites the priority
    at the given slot indices (taken circularly) with the given weights. -/
def set_priorities {σ : Type} (bs : BufferState σ) (idxs : List ℕ) (ws : List ℚ) :
    BufferState σ :=
  { bs with
    priorities := (idxs.zip ws).foldl
      (fun ps iw => ps.set (iw.1 % bs.capacity) iw.2) bs.priorities }

/-- Embeds the buffer-write portion of DQN._update_step.take_step
    (dqn_vw.py lines 317-328): add the timestep batch, compute
    transition_weight = powfn(|td| + buffer_epsilon, buffer_alpha) per
    transition (powfn abstracts jnp.power), and set priorities at
    added_indices = arange(batch length) + current_index, where current_index
    is read from the state AFTER the add. -/
def write_batch_with_priorities {σ : Type} (powfn : ℚ → ℚ → ℚ) (epsP alpha : ℚ)
    (bs : BufferState σ) (batch : List σ) (tds : List ℚ) : BufferState σ :=
  let bs1 := buffer_add bs batch
  set_priorities bs1 ((List.range batch.length).map (fun j => j + bs1.current_index))
    (tds.map (fun e => powfn (|e| + epsP) alpha))

/-- Which distribution the buffer sample function draws indices from. -/
inductive SampleKind where
  | prioritized
  | uniform
deriving DecidableEq

/-- Embeds the buffer construction in DQN.__init__ (dqn_vw.py lines 88-104):
    fbx.make_prioritised_flat_buffer yields a buffer whose sample is
    priority-weighted; if hpo_config buffer_prio_sampling is True, the sample
    function is replaced by uniform_sample. -/
def dqn_sample_kind (buffer_prio_sampling : Bool) : SampleKind :=
  let buffer := SampleKind.prioritized
  if buffer_prio_sampling = true then SampleKind.uniform else buffer

/-- Modelled from the spec (4.1): index-sampling distribution over the buffer
    slots. The prioritised sample draws slot i with probability
    priorities i / sum of priorities (the stored priorities already carry the
    exponent); uniform_sample (arlbench.algorithms.buffers, not under src/)
    draws each slot with equal probability. -/
def sample_distribution (kind : SampleKind) (ps : List ℚ) : List ℚ :=
  match kind with
  | SampleKind.prioritized => ps.map (fun p => p / ps.sum)
  | SampleKind.uniform => ps.map (fun _ => 1 / (ps.length : ℚ))

/-- Embeds DQNTrainState: online parameters, target parameters and optimizer
    state; parameter trees are embedded leaf-wise as functions i -> Q.
    The flax step counter is omitted (no claim mentions it). -/
structure TrainState (ι O : Type) where
  params : ι → ℚ
  target_params : ι → ℚ
  opt_state : O

/-- Modelled from the spec (4.4): optax.incremental_update(new, old, step_size)
    returns step_size * new + (1 - step_size) * old, leaf-wise. -/
def incremental_update {ι : Type} (newP oldP : ι → ℚ) (stepSize : ℚ) : ι → ℚ :=
  fun i => stepSize * newP i + (1 - stepSize) * oldP i

/-- Embeds DQN._update_step.target_update (dqn_vw.py lines 362-367): replace the
    target parameters by incremental_update(params, target_params, tau). -/
def target_update {ι O : Type} (ts : TrainState ι O) (tau : ℚ) : TrainState ι O :=
  { ts with target_params := incremental_update ts.params ts.target_params tau }

/-- Embeds DQNRunnerState: rng key, train state, environment state, last
    observation batch and the global step counter. -/
structure RunnerState (ι O E Obs K : Type) where
  rng : K
  train_state : TrainState ι O
  env_state : E
  obs : List Obs
  global_step : ℕ

/-- The ambient operations the DQN scheduler is parameterised by: the
    hyperparameter config, the splittable RNG (split, uniform draw, action
    sampling), the environment step, the Q network apply function, the
    gradient application (abstracting jax.value_and_grad + apply_gradients,
    which touch only the online parameters and the optimizer state), the
    buffer sample function and the power function used for priorities. -/
structure DQNSem (ι O E Obs K : Type) where
  cfg : HPOConfig
  split : K → K × K
  uniformQ : K → ℚ
  sampleAction : K → ℕ
  envStep : E → List ℕ → K → E × (List Obs × List ℚ × List Bool)
  net : (ι → ℚ) → Obs → List ℚ
  gradApply : (ι → ℚ) → O → (ι → ℚ) × O
  sampleFn : BufferState (TimeStep Obs) → K → List (TimeStep Obs)
  powfn : ℚ → ℚ → ℚ

/-- Embeds the TD-error computation in DQN._update_step.take_step
    (dqn_vw.py lines 299-315), exactly as written there: q_next_target is
    network.apply(target or online params, obsv).argmax(axis=-1), an action
    INDEX promoted to a number; the predicted value is
    network.apply(params, last_obs).take(action), i.e. the row-major
    flattened q-matrix indexed at the action values. -/
def td_error_code {ι O E Obs K : Type} (sem : DQNSem ι O E Obs K) (ts : TrainState ι O)
    (last_obs obsv : List Obs) (action : List ℕ) (reward : List ℚ) (done : List Bool) :
    List ℚ :=
  let tp := if sem.cfg.use_target_network then ts.target_params else ts.params
  let q_next : List ℚ := obsv.map (fun o => ((argmaxIdx (sem.net tp o) : ℕ) : ℚ))
  let flatQ : List ℚ := (last_obs.map (sem.net ts.params)).flatten
  (List.range reward.length).map (fun i =>
    reward.getD i 0 + (if done.getD i false then 0 else 1) * sem.cfg.gamma * q_next.getD i 0
      - flatQ.getD (action.getD i 0) 0)

/-- Follows the words of the spec (4.1), for comparison with td_error_code:
    TD error = reward + (1 - done) * gamma * max_a Q_target(next_obs, a)
    - Q_online(prev_obs, action_taken), per transition. -/
def td_error_spec {ι O E Obs K : Type} (sem : DQNSem ι O E Obs K) (ts : TrainState ι O)
    (last_obs obsv : List Obs) (action : List ℕ) (reward : List ℚ) (done : List Bool) :
    List ℚ :=
  let tp := if sem.cfg.use_target_network then ts.target_params else ts.params
  let q_next : List ℚ := obsv.map (fun o => maxVal (sem.net tp o))
  (List.range reward.length).map (fun i =>
    reward.getD i 0 + (if done.getD i false then 0 else 1) * sem.cfg.gamma * q_next.getD i 0
      - ((last_obs.map (sem.net ts.params)).getD i []).getD (action.getD i 0) 0)

/-- Embeds the epsilon-greedy choice inside take_step (dqn_vw.py lines 276-295):
    if jax.random.uniform(rng) < epsilon then random_action (which calls
    env.sample_action(rng) once per parallel environment, all with the same
    key) else the argmax of the online q-values at last_obs. Both rng and
    last_obs are the values captured by closure from _update_step, so they are
    the same at every step of the rollout. -/
def select_action {ι O E Obs K : Type} (sem : DQNSem ι O E Obs K) (ts : TrainState ι O)
    (k1 : K) (last_obs0 : List Obs) : List ℕ :=
  if sem.uniformQ k1 < sem.cfg.epsilon then
    (List.range sem.cfg.n_envs).map (fun _ => sem.sampleAction k1)
  else
    last_obs0.map (fun o => argmaxIdx (sem.net ts.params o))

/-- The values emitted by one inner rollout step (dqn_vw.py lines 332-339):
    new observations, actions, rewards, done flags and TD errors (the opaque
    info dict is omitted). env_key is a ghost field recording which key was
    passed to env.step, for the RNG-reuse claim. -/
structure StepEmit (Obs K : Type) where
  obsv : List Obs
  action : List ℕ
  reward : List ℚ
  done : List Bool
  td_error : List ℚ
  env_key : K

/-- Embeds DQN._update_step.take_step (dqn_vw.py lines 289-339). The carry is
    (obsv, env_state, global_step, buffer_state); ts, k1 (the re-split rng),
    k2 (the _rng passed to env.step) and last_obs0 are captured by closure from
    the enclosing _update_step, hence constant across the rollout. The action
    and the TD error read last_obs0 (the closure variable), not the carried
    observation, exactly as the source does. global_step advances by n_envs. -/
def take_step {ι O E Obs K : Type} (sem : DQNSem ι O E Obs K) (ts : TrainState ι O)
    (k1 k2 : K) (last_obs0 : List Obs)
    (carry : List Obs × E × ℕ × BufferState (TimeStep Obs)) :
    (List Obs × E × ℕ × BufferState (TimeStep Obs)) × StepEmit Obs K :=
  let action := select_action sem ts k1 last_obs0
  let stepRes := sem.envStep carry.2.1 action k2
  let obsv := stepRes.2.1
  let reward := stepRes.2.2.1
  let done := stepRes.2.2.2
  let td := td_error_code sem ts last_obs0 obsv action reward done
  let batch := (last_obs0.zip (obsv.zip (action.zip (reward.zip done)))).map
    (fun x => TimeStep.mk x.1 x.2.1 x.2.2.1 x.2.2.2.1 x.2.2.2.2)
  ((obsv, stepRes.1, carry.2.2.1 + sem.cfg.n_envs,
    write_batch_with_priorities sem.powfn sem.cfg.buffer_epsilon sem.cfg.buffer_alpha
      carry.2.2.2 batch td),
   ⟨obsv, action, reward, done, td, k2⟩)

/-- Embeds DQN.update (dqn_vw.py lines 226-259): bootstrapped regression target
    from max of the selected network at next_observations, mean squared error
    against the q-values gathered at the taken actions, then one gradient step
    (gradApply), which produces new online parameters and optimizer state and
    leaves the target parameters untouched. Returns the new state and loss. -/
def dqn_update {ι O E Obs K : Type} (sem : DQNSem ι O E Obs K) (ts : TrainState ι O)
    (observations : List Obs) (actions : List ℕ) (next_observations : List Obs)
    (rewards : List ℚ) (dones : List Bool) : TrainState ι O × ℚ :=
  let tp := if sem.cfg.use_target_network then ts.target_params else ts.params
  let q_next := next_observations.map (fun o => maxVal (sem.net tp o))
  let next_q_value := (List.range rewards.length).map (fun i =>
    rewards.getD i 0 + (if dones.getD i false then 0 else 1) * sem.cfg.gamma * q_next.getD i 0)
  let q_pred := (List.range rewards.length).map (fun i =>
    ((observations.map (sem.net ts.params)).getD i []).getD (actions.getD i 0) 0)
  let loss := meanQ ((List.range rewards.length).map (fun i =>
    (q_pred.getD i 0 - next_q_value.getD i 0) ^ 2))
  (TrainState.mk (sem.gradApply ts.params ts.opt_state).1 ts.target_params
    (sem.gradApply ts.params ts.opt_state).2, loss)

/-- Embeds the update gate of _update_step (dqn_vw.py lines 341-360, 386-393):
    if global_step > learning_starts and global_step mod train_frequency == 0
    then sample a batch from the buffer with key k1 and run DQN.update on it,
    else return the train state unchanged together with the placeholder loss
    mean((array([0]) - array([0]))^2). -/
def updated_train_state {ι O E Obs K : Type} (sem : DQNSem ι O E Obs K)
    (ts : TrainState ι O) (bs1 : BufferState (TimeStep Obs)) (k1 : K) (gs1 : ℕ) :
    TrainState ι O × ℚ :=
  if gs1 > sem.cfg.learning_starts ∧ gs1 % sem.cfg.train_frequency = 0 then
    dqn_update sem ts ((sem.sampleFn bs1 k1).map TimeStep.last_obs)
      ((sem.sampleFn bs1 k1).map TimeStep.action)
      ((sem.sampleFn bs1 k1).map TimeStep.obs)
      ((sem.sampleFn bs1 k1).map TimeStep.reward)
      ((sem.sampleFn bs1 k1).map TimeStep.done)
  else (ts, meanQ [((0 : ℚ) - 0) ^ 2])

/-- Embeds the target-sync gate of _update_step (dqn_vw.py lines 362-370,
    394-399): if global_step > learning_starts and global_step mod
    target_network_update_freq == 0 then apply target_update with tau, else
    leave the train state unchanged. -/
def synced_train_state {ι O E Obs K : Type} (sem : DQNSem ι O E Obs K)
    (ts1 : TrainState ι O) (gs1 : ℕ) : TrainState ι O :=
  if gs1 > sem.cfg.learning_starts ∧ gs1 % sem.cfg.target_network_update_freq = 0 then
    target_update ts1 sem.cfg.tau
  else ts1

/-- Embeds the rollout of _update_step (dqn_vw.py lines 274, 372-384):
    rng, _rng = jax.random.split(rng) once, then jax.lax.scan of take_step for
    train_frequency iterations starting from (last_obs, env_state, global_step,
    buffer_state). -/
def rollout {ι O E Obs K : Type} (sem : DQNSem ι O E Obs K) (rs : RunnerState ι O E Obs K)
    (bs : BufferState (TimeStep Obs)) :
    (List Obs × E × ℕ × BufferState (TimeStep Obs)) × List (StepEmit Obs K) :=
  scanN (take_step sem rs.train_state (sem.split rs.rng).1 (sem.split rs.rng).2 rs.obs)
    sem.cfg.train_frequency (rs.obs, rs.env_state, rs.global_step, bs)

/-- Embeds DQN._update_step (dqn_vw.py lines 261-429): rollout, then the update
    gate and the target-sync gate evaluated on the post-rollout global_step,
    producing the next runner state (with the first key of the split as its
    rng) and buffer state. The loss and the emitted per-step values are
    returned alongside, standing for the metric outputs. -/
def dqn_update_step {ι O E Obs K : Type} (sem : DQNSem ι O E Obs K)
    (rs : RunnerState ι O E Obs K) (bs : BufferState (TimeStep Obs)) :
    (RunnerState ι O E Obs K × BufferState (TimeStep Obs)) × (ℚ × List (StepEmit Obs K)) :=
  ((RunnerState.mk (sem.split rs.rng).1
      (synced_train_state sem
        (updated_train_state sem rs.train_state (rollout sem rs bs).1.2.2.2
          (sem.split rs.rng).1 (rollout sem rs bs).1.2.2.1).1
        (rollout sem rs bs).1.2.2.1)
      (rollout sem rs bs).1.2.1
      (rollout sem rs bs).1.1
      (rollout sem rs bs).1.2.2.1,
    (rollout sem rs bs).1.2.2.2),
   ((updated_train_state sem rs.train_state (rollout sem rs bs).1.2.2.2
      (sem.split rs.rng).1 (rollout sem rs bs).1.2.2.1).2,
    (rollout sem rs bs).2))

/-- N outer training iterations: N-fold application of _update_step, as in
    DQN.train (dqn_vw.py lines 215-224), which scans _update_step. -/
def trainN {ι O E Obs K : Type} (sem : DQNSem ι O E Obs K) :
    ℕ → RunnerState ι O E Obs K × BufferState (TimeStep Obs) →
    RunnerState ι O E Obs K × BufferState (TimeStep Obs)
  | 0, p => p
  | n + 1, p => trainN sem n (dqn_update_step sem p.1 p.2).1

/-- The action-space kinds distinguished by Algorithm.action_type. -/
inductive ActionSpace where
  | Discrete (n : ℕ)
  | Box (shape : List ℕ)
  | Other (desc : String)
deriving DecidableEq

/-- Embeds Algorithm.action_type (algorithm.py lines 34-61): Discrete spaces
    yield (n, discrete := true); Box spaces yield (shape[0],
    discrete := false); anything else raises NotImplementedError with the
    message below. Raising is embedded as Except.error. -/
def action_type : ActionSpace → Except String (ℕ × Bool)
  | ActionSpace.Discrete n => Except.ok (n, true)
  | ActionSpace.Box shape => Except.ok (shape.headD 0, false)
  | ActionSpace.Other d =>
      Except.error ("Only Discrete and Box action spaces are supported, got " ++ d ++ ".")

/-- The per-environment accumulators of Algorithm._env_episode
    (algorithm.py lines 96-136): accumulated reward and done mask. -/
structure EvalState (n : ℕ) where
  reward : Fin n → ℚ
  done : Fin n → Bool

/-- Embeds the loop body of Algorithm._env_episode (algorithm.py lines
    115-131): reward += step_reward * (not done); done := done OR step_done.
    The action selection and env step are abstracted into the per-step
    (step_reward, step_done) pair, which is what the accumulators consume. -/
def eval_body {n : ℕ} (step_reward : Fin n → ℚ) (step_done : Fin n → Bool)
    (s : EvalState n) : EvalState n :=
  { reward := fun i => s.reward i + step_reward i * (if s.done i then 0 else 1)
    done := fun i => s.done i || step_done i }

/-- The evaluator accumulation over any sequence of steps: folds eval_body over
    the per-step environment outputs, as the while loop of _env_episode does. -/
def eval_fold {n : ℕ} (steps : List ((Fin n → ℚ) × (Fin n → Bool))) (s : EvalState n) :
    EvalState n :=
  steps.foldl (fun st p => eval_body p.1 p.2 st) s

/-- A concrete two-action Q network used to evaluate the TD-error definitions:
    the online parameters (constant 0) see q-values [3, 4], the target
    parameters (constant 1) see q-values [5, 2]. -/
def demoNet : (Unit → ℚ) → Unit → List ℚ :=
  fun p _ => if p () = 0 then [3, 4] else [5, 2]

/-- A concrete train state for evaluation: online params constant 0, target
    params constant 1. -/
def demoTS : TrainState Unit Unit :=
  { params := fun _ => 0, target_params := fun _ => 1, opt_state := () }

/-- A concrete configuration for evaluation: gamma 1, tau 1, one environment,
    train_frequency 1, learning_starts 10, target_network_update_freq 5. -/
def demoCfg : HPOConfig :=
  { gamma := 1, tau := 1, epsilon := 0, buffer_epsilon := 1, buffer_alpha := 1
    use_target_network := true, train_frequency := 1, learning_starts := 10
    target_network_update_freq := 5, buffer_batch_size := 1, buffer_size := 4, n_envs := 1 }

/-- A concrete semantics instance over trivial state and key types. -/
def demoSem : DQNSem Unit Unit Unit Unit Unit :=
  { cfg := demoCfg
    split := fun _ => ((), ())
    uniformQ := fun _ => 1
    sampleAction := fun _ => 0
    envStep := fun _ _ _ => ((), ([()], [0], [false]))
    net := demoNet
    gradApply := fun p o => (p, o)
    sampleFn := fun _ _ => []
    powfn := fun x _ => x }

/-- A concrete runner state at global_step 0. -/
def demoRS : RunnerState Unit Unit Unit Unit Unit :=
  { rng := (), train_state := demoTS, env_state := (), obs := [()], global_step := 0 }

/-- A concrete empty capacity-4 buffer with all priorities 0 and write index 0. -/
def demoBuf : BufferState (TimeStep Unit) :=
  { capacity := 4
    storage := List.replicate 4 ⟨(), (), 0, 0, false⟩
    priorities := [0, 0, 0, 0]
    current_index := 0
    valid_length := 0 }

/-- A concrete evaluator state over two environments: environment 0 already
    done with accumulated reward 5, environment 1 still running. -/
def evalDemoState : EvalState 2 :=
  { reward := ![5, 0], done := ![true, false] }

/-- One further evaluator step in which both environments emit reward 7 and
    environment 1 finishes. -/
def evalDemoSteps : List ((Fin 2 → ℚ) × (Fin 2 → Bool)) :=
  [(![7, 7], ![false, true])]

theorem scanN_succ {C B : Type} (f : C → C × B) (n : ℕ) (c : C) :
    scanN f (n + 1) c = ((scanN f n (f c).1).1, (f c).2 :: (scanN f n (f c).1).2) := rfl

theorem take_step_global_step {ι O E Obs K : Type} (sem : DQNSem ι O E Obs K)
    (ts : TrainState ι O) (k1 k2 : K) (lo0 : List Obs)
    (c : List Obs × E × ℕ × BufferState (TimeStep Obs)) :
    (take_step sem ts k1 k2 lo0 c).1.2.2.1 = c.2.2.1 + sem.cfg.n_envs := rfl

theorem take_step_emit {ι O E Obs K : Type} (sem : DQNSem ι O E Obs K)
    (ts : TrainState ι O) (k1 k2 : K) (lo0 : List Obs)
    (c : List Obs × E × ℕ × BufferState (TimeStep Obs)) :
    (take_step sem ts k1 k2 lo0 c).2.action = select_action sem ts k1 lo0 ∧
    (take_step sem ts k1 k2 lo0 c).2.env_key = k2 := ⟨rfl, rfl⟩

theorem scan_take_step_gs {ι O E Obs K : Type} (sem : DQNSem ι O E Obs K)
    (ts : TrainState ι O) (k1 k2 : K) (lo0 : List Obs) (n : ℕ) :
    ∀ c : List Obs × E × ℕ × BufferState (TimeStep Obs),
      (scanN (take_step sem ts k1 k2 lo0) n c).1.2.2.1 = c.2.2.1 + n * sem.cfg.n_envs := by
  induction n with
  | zero => intro c; simp [scanN]
  | succ m ih =>
      intro c
      rw [scanN_succ]
      show (scanN (take_step sem ts k1 k2 lo0) m (take_step sem ts k1 k2 lo0 c).1).1.2.2.1 = _
      rw [ih, take_step_global_step]
      ring

theorem scan_take_step_emit {ι O E Obs K : Type} (sem : DQNSem ι O E Obs K)
    (ts : TrainState ι O) (k1 k2 : K) (lo0 : List Obs) (n : ℕ) :
    ∀ c : List Obs × E × ℕ × BufferState (TimeStep Obs),
      (scanN (take_step sem ts k1 k2 lo0) n c).2.map StepEmit.action =
        List.replicate n (select_action sem ts k1 lo0) ∧
      (scanN (take_step sem ts k1 k2 lo0) n c).2.map StepEmit.env_key =
        List.replicate n k2 := by
  induction n with
  | zero => intro c; exact ⟨rfl, rfl⟩
  | succ m ih =>
      intro c
      rw [scanN_succ]
      obtain ⟨ha, hk⟩ := ih (take_step sem ts k1 k2 lo0 c).1
      refine ⟨?_, ?_⟩
      · show (take_step sem ts k1 k2 lo0 c).2.action ::
          (scanN (take_step sem ts k1 k2 lo0) m (take_step sem ts k1 k2 lo0 c).1).2.map
            StepEmit.action = _
        rw [ha, (take_step_emit sem ts k1 k2 lo0 c).1, List.replicate_succ]
      · show (take_step sem ts k1 k2 lo0 c).2.env_key ::
          (scanN (take_step sem ts k1 k2 lo0) m (take_step sem ts k1 k2 lo0 c).1).2.map
            StepEmit.env_key = _
        rw [hk, (take_step_emit sem ts k1 k2 lo0 c).2, List.replicate_succ]

theorem rollout_gs {ι O E Obs K : Type} (sem : DQNSem ι O E Obs K)
    (rs : RunnerState ι O E Obs K) (bs : BufferState (TimeStep Obs)) :
    (rollout sem rs bs).1.2.2.1 =
      rs.global_step + sem.cfg.train_frequency * sem.cfg.n_envs := by
  unfold rollout
  rw [scan_take_step_gs]

theorem updated_not_gate {ι O E Obs K : Type} (sem : DQNSem ι O E Obs K)
    (ts : TrainState ι O) (bs1 : BufferState (TimeStep Obs)) (k1 : K) (gs1 : ℕ)
    (h : ¬ (gs1 > sem.cfg.learning_starts ∧ gs1 % sem.cfg.train_frequency = 0)) :
    updated_train_state sem ts bs1 k1 gs1 = (ts, meanQ [((0 : ℚ) - 0) ^ 2]) := by
  unfold updated_train_state
  rw [if_neg h]

theorem updated_target_params {ι O E Obs K : Type} (sem : DQNSem ι O E Obs K)
    (ts : TrainState ι O) (bs1 : BufferState (TimeStep Obs)) (k1 : K) (gs1 : ℕ) :
    (updated_train_state sem ts bs1 k1 gs1).1.target_params = ts.target_params := by
  unfold updated_train_state
  split
  · rfl
  · rfl

/-- C1: REFUTED on the code. DQN.__init__ builds a prioritised buffer and then,
    exactly when buffer_prio_sampling is True, replaces its sample function
    with uniform_sample — the opposite of the claim. With the flag True the
    index distribution over priorities [1, 3] is the uniform [1/2, 1/2], not
    the priority-weighted [1/4, 3/4] the claim requires. -/
theorem C1_prio_sampling_flag_inverted :
    dqn_sample_kind true = SampleKind.uniform ∧
    dqn_sample_kind false = SampleKind.prioritized ∧
    sample_distribution (dqn_sample_kind true) [1, 3] = [1/2, 1/2] ∧
    sample_distribution SampleKind.prioritized [1, 3] = [1/4, 3/4] ∧
    sample_distribution (dqn_sample_kind true) [1, 3] ≠
      sample_distribution SampleKind.prioritized [1, 3] := by
  refine ⟨rfl, rfl, ?_, ?_, ?_⟩ <;> norm_num [sample_distribution, dqn_sample_kind]

/-- C2: REFUTED on the code. At a concrete transition (one environment, target
    q-values [5, 2] at the next observation, online q-values [3, 4] at the
    previous observation, action 1, reward 0, done false, gamma 1) the
    scheduler TD error uses argmax — the index 0 of the best next action —
    where the claim (and DQN.update itself) use the max value 5: the code
    yields -4 while the claimed formula yields 1. -/
theorem C2_td_error_uses_argmax_not_max :
    td_error_code demoSem demoTS [()] [()] [1] [0] [false] = [-4] ∧
    td_error_spec demoSem demoTS [()] [()] [1] [0] [false] = [1] := by
  constructor <;>
    norm_num [td_error_code, td_error_spec, demoSem, demoCfg, demoTS, demoNet,
      argmaxIdx, argmaxGo, maxVal, List.range_succ]

/-- C3: REFUTED on the code. Writing one transition with |TD error| = 1 into
    the empty capacity-4 buffer (buffer_epsilon 1, buffer_alpha 1, so weight
    (1 + 1) ^ 1 = 2, here with the exponent-1 power function): the transition
    lands in slot 0, but added_indices is computed from current_index AFTER
    the add, so the weight 2 is stored at slot 1 and the written slot 0 keeps
    its old priority 0 ≠ 2. -/
theorem C3_priority_stored_at_wrong_slot :
    (write_batch_with_priorities (fun x _ => x) 1 1 demoBuf
      [⟨(), (), 0, 1, false⟩] [1]).priorities = [0, 2, 0, 0] ∧
    (write_batch_with_priorities (fun x _ => x) 1 1 demoBuf
      [⟨(), (), 0, 1, false⟩] [1]).storage.getD 0 ⟨(), (), 0, 0, false⟩ =
      ⟨(), (), 0, 1, false⟩ ∧
    (write_batch_with_priorities (fun x _ => x) 1 1 demoBuf
      [⟨(), (), 0, 1, false⟩] [1]).priorities.getD 0 0 ≠ 2 := by
  refine ⟨?_, ?_, ?_⟩ <;>
    norm_num [write_batch_with_priorities, buffer_add, set_priorities, demoBuf,
      List.range_succ, List.replicate]

/-- C4 counterexample: a Box action space is ACCEPTED at construction —
    Algorithm.action_type returns ok (shape[0], discrete := false) for
    Box [3] and does not produce an error, contradicting the claim that
    construction fails for every continuous (Box) action space. -/
theorem C4_box_is_accepted :
    action_type (ActionSpace.Box [3]) = Except.ok (3, false) ∧
    ∀ msg, action_type (ActionSpace.Box [3]) ≠ Except.error msg :=
  ⟨rfl, fun _ h => Except.noConfusion h⟩

/-- C4 amended: Discrete spaces are accepted as (n, discrete := true), Box
    spaces are accepted as (shape[0], discrete := false), and only an action
    space that is neither Discrete nor Box fails at construction, with the
    explicit unsupported-action-space error. -/
theorem C4_action_type_amended (n : ℕ) (shape : List ℕ) (d : String) :
    action_type (ActionSpace.Discrete n) = Except.ok (n, true) ∧
    action_type (ActionSpace.Box shape) = Except.ok (shape.headD 0, false) ∧
    action_type (ActionSpace.Other d) =
      Except.error ("Only Discrete and Box action spaces are supported, got " ++ d ++ ".") :=
  ⟨rfl, rfl, rfl⟩

/-- C5: after one outer iteration the target parameters are bit-identical to
    the prior state when the target-sync gate — post-rollout global_step
    (= prior global_step + train_frequency * n_envs) exceeding learning_starts
    and being divisible by target_network_update_freq — is false, and exactly
    when the gate holds the synchronizer is applied: the new target parameters
    equal incremental_update(resulting online params, prior target params,
    tau). -/
theorem C5_target_sync_gate {ι O E Obs K : Type} (sem : DQNSem ι O E Obs K)
    (rs : RunnerState ι O E Obs K) (bs : BufferState (TimeStep Obs)) :
    (¬ (rs.global_step + sem.cfg.train_frequency * sem.cfg.n_envs > sem.cfg.learning_starts ∧
        (rs.global_step + sem.cfg.train_frequency * sem.cfg.n_envs) %
          sem.cfg.target_network_update_freq = 0) →
      (dqn_update_step sem rs bs).1.1.train_state.target_params =
        rs.train_state.target_params) ∧
    ((rs.global_step + sem.cfg.train_frequency * sem.cfg.n_envs > sem.cfg.learning_starts ∧
        (rs.global_step + sem.cfg.train_frequency * sem.cfg.n_envs) %
          sem.cfg.target_network_update_freq = 0) →
      (dqn_update_step sem rs bs).1.1.train_state.target_params =
        incremental_update (dqn_update_step sem rs bs).1.1.train_state.params
          rs.train_state.target_params sem.cfg.tau) := by
  have hgs := rollout_gs sem rs bs
  constructor
  · intro h
    dsimp only [dqn_update_step]
    rw [hgs]
    unfold synced_train_state
    rw [if_neg h, updated_target_params]
  · intro h
    dsimp only [dqn_update_step]
    rw [hgs]
    unfold synced_train_state
    rw [if_pos h]
    dsimp only [target_update]
    rw [updated_target_params]

/-- C5 witness: with the concrete semantics (train_frequency 1, n_envs 1,
    learning_starts 10) and global_step 0, the post-rollout step is 1, the
    gate is false, and the target parameters are unchanged. -/
theorem C5_target_sync_gate_witness :
    (dqn_update_step demoSem demoRS demoBuf).1.1.train_state.target_params =
      demoRS.train_state.target_params :=
  (C5_target_sync_gate demoSem demoRS demoBuf).1 (by decide)

/-- C6: when the update gate — post-rollout global_step exceeding
    learning_starts and divisible by train_frequency — is false, the online
    parameters and the optimizer state are returned unchanged, the reported
    loss is zero, and no batch is sampled: the whole result is unchanged under
    replacing the buffer sample function by any other. -/
theorem C6_update_gate_noop {ι O E Obs K : Type} (sem : DQNSem ι O E Obs K)
    (f2 : BufferState (TimeStep Obs) → K → List (TimeStep Obs))
    (rs : RunnerState ι O E Obs K) (bs : BufferState (TimeStep Obs))
    (h : ¬ (rs.global_step + sem.cfg.train_frequency * sem.cfg.n_envs > sem.cfg.learning_starts ∧
        (rs.global_step + sem.cfg.train_frequency * sem.cfg.n_envs) %
          sem.cfg.train_frequency = 0)) :
    (dqn_update_step sem rs bs).1.1.train_state.params = rs.train_state.params ∧
    (dqn_update_step sem rs bs).1.1.train_state.opt_state = rs.train_state.opt_state ∧
    (dqn_update_step sem rs bs).2.1 = 0 ∧
    dqn_update_step { sem with sampleFn := f2 } rs bs = dqn_update_step sem rs bs := by
  have hgs := rollout_gs sem rs bs
  refine ⟨?_, ?_, ?_, ?_⟩
  · dsimp only [dqn_update_step]
    rw [hgs, updated_not_gate _ _ _ _ _ h]
    unfold synced_train_state
    split
    · rfl
    · rfl
  · dsimp only [dqn_update_step]
    rw [hgs, updated_not_gate _ _ _ _ _ h]
    unfold synced_train_state
    split
    · rfl
    · rfl
  · dsimp only [dqn_update_step]
    rw [hgs, updated_not_gate _ _ _ _ _ h]
    norm_num [meanQ]
  · have e1 : rollout { sem with sampleFn := f2 } rs bs = rollout sem rs bs := rfl
    dsimp only [dqn_update_step]
    rw [e1, hgs, updated_not_gate { sem with sampleFn := f2 } rs.train_state _ _ _ h,
      updated_not_gate sem rs.train_state _ _ _ h]
    rfl

/-- C6 witness: with the concrete semantics and global_step 0 the post-rollout
    step is 1 < learning_starts = 10; the no-op branch result holds there. -/
theorem C6_update_gate_noop_witness :
    (dqn_update_step demoSem demoRS demoBuf).1.1.train_state.params =
      demoRS.train_state.params ∧
    (dqn_update_step demoSem demoRS demoBuf).1.1.train_state.opt_state =
      demoRS.train_state.opt_state ∧
    (dqn_update_step demoSem demoRS demoBuf).2.1 = 0 ∧
    dqn_update_step { demoSem with sampleFn := fun _ _ => [] } demoRS demoBuf =
      dqn_update_step demoSem demoRS demoBuf :=
  C6_update_gate_noop demoSem (fun _ _ => []) demoRS demoBuf (by decide)

/-- C7: after N outer training iterations the global step counter equals
    initial_step + N * train_frequency * n_envs: every one of the
    train_frequency inner rollout steps advances global_step by n_envs and
    nothing else touches it. -/
theorem C7_global_step_after_N_iterations {ι O E Obs K : Type} (sem : DQNSem ι O E Obs K)
    (N : ℕ) (p : RunnerState ι O E Obs K × BufferState (TimeStep Obs)) :
    (trainN sem N p).1.global_step =
      p.1.global_step + N * (sem.cfg.train_frequency * sem.cfg.n_envs) := by
  induction N generalizing p with
  | zero => simp [trainN]
  | succ m ih =>
      have hstep : (dqn_update_step sem p.1 p.2).1.1.global_step =
          p.1.global_step + sem.cfg.train_frequency * sem.cfg.n_envs := by
        dsimp only [dqn_update_step]
        exact rollout_gs sem p.1 p.2
      show (trainN sem m (dqn_update_step sem p.1 p.2).1).1.global_step = _
      rw [ih, hstep]
      ring

/-- C8: once an environment in an evaluation batch is marked done, its
    accumulated reward never changes at any later step — each step adds reward
    only for environments whose done mask is still false (reward +=
    step_reward * (not done)) and the mask is updated by logical OR, so it
    stays true. Holds for every sequence of later step outputs, including
    nonzero rewards. -/
theorem C8_eval_reward_frozen_after_done {n : ℕ}
    (steps : List ((Fin n → ℚ) × (Fin n → Bool))) (s : EvalState n) (i : Fin n)
    (h : s.done i = true) :
    (eval_fold steps s).reward i = s.reward i ∧ (eval_fold steps s).done i = true := by
  induction steps generalizing s with
  | nil => exact ⟨rfl, h⟩
  | cons p rest ih =>
      have hd : (eval_body p.1 p.2 s).done i = true := by
        simp [eval_body, h]
      have hr : (eval_body p.1 p.2 s).reward i = s.reward i := by
        simp [eval_body, h]
      have hfold : eval_fold (p :: rest) s = eval_fold rest (eval_body p.1 p.2 s) := rfl
      rw [hfold]
      obtain ⟨a, b⟩ := ih (eval_body p.1 p.2 s) hd
      exact ⟨a.trans hr, b⟩

/-- C8 witness: environment 0 is done with accumulated reward 5; after a
    further step emitting reward 7 for everyone its accumulated reward is
    still 5 and its done flag still true. -/
theorem C8_eval_reward_frozen_after_done_witness :
    (eval_fold evalDemoSteps evalDemoState).reward 0 = evalDemoState.reward 0 ∧
    (eval_fold evalDemoSteps evalDemoState).done 0 = true :=
  C8_eval_reward_frozen_after_done evalDemoSteps evalDemoState 0 (by decide)

/-- C9: for every train state and every tau in [0, 1], the target synchronizer
    produces target parameters equal, leaf-wise, to
    tau * online + (1 - tau) * target, and with tau = 1 the new target
    parameters are exactly the online parameters (hard copy). -/
theorem C9_target_sync_formula {ι O : Type} (ts : TrainState ι O) (tau : ℚ)
    (_h0 : 0 ≤ tau) (_h1 : tau ≤ 1) :
    (∀ i, (target_update ts tau).target_params i =
      tau * ts.params i + (1 - tau) * ts.target_params i) ∧
    (tau = 1 → (target_update ts tau).target_params = ts.params) := by
  refine ⟨fun i => rfl, fun h => ?_⟩
  funext i
  simp [target_update, incremental_update, h]

/-- C9 witness: with tau = 1 the target parameters become exactly the online
    parameters of the concrete train state. -/
theorem C9_target_sync_formula_witness :
    (target_update demoTS 1).target_params = demoTS.params :=
  (C9_target_sync_formula demoTS 1 (by norm_num) (by norm_num)).2 rfl

/-- C10: within one outer iteration the rng is split exactly once, before the
    rollout; every one of the train_frequency inner steps reuses the first key
    for the epsilon-greedy coin flip and action sampling and passes the second
    key to env.step. Consequently the explore-vs-exploit decision — and in this
    code even the selected action, since the greedy branch reads the
    closure-captured initial observation — is identical at every step: the
    emitted actions are train_frequency copies of select_action at the first
    key, and every step records the second key as its environment key. -/
theorem C10_rollout_single_split_constant_decision {ι O E Obs K : Type}
    (sem : DQNSem ι O E Obs K) (rs : RunnerState ι O E Obs K)
    (bs : BufferState (TimeStep Obs)) :
    (dqn_update_step sem rs bs).2.2.map StepEmit.action =
      List.replicate sem.cfg.train_frequency
        (select_action sem rs.train_state (sem.split rs.rng).1 rs.obs) ∧
    (dqn_update_step sem rs bs).2.2.map StepEmit.env_key =
      List.replicate sem.cfg.train_frequency (sem.split rs.rng).2 := by
  dsimp only [dqn_update_step]
  unfold rollout
  exact scan_take_step_emit sem rs.train_state (sem.split rs.rng).1 (sem.split rs.rng).2
    rs.obs sem.cfg.train_frequency (rs.obs, rs.env_state, rs.global_step, bs)

end ARLBench
